import Mathlib

/-!
Shallow embedding of the token-counter service core
(src/rust-token-counter/src/main.rs).

Conventions of the embedding:
* Rust `f64` arithmetic is modelled by exact rational arithmetic over `ℚ`;
  decimal literals such as `0.0005` denote the exact rational value.
* Rust `f64::round` rounds half away from zero; Mathlib's `round` rounds
  half up.  The two agree on all non-negative arguments, and every value
  rounded in this program is non-negative (token counts are naturals and
  all pricing rates are non-negative).
* Rust `u32` token counts are modelled by `ℕ` (no arithmetic in the
  program can overflow a count it was given).
* The Rust `HashMap<&str, ModelPricing>` is modelled by an association
  list with the same key/value pairs; `HashMap::get` is `List.lookup`.
* Fallible handlers returning `Result<Json<T>, (StatusCode, Json<ErrorResponse>)>`
  are modelled by `Except (ℕ × ErrorResponse) T`, the `ℕ` being the HTTP
  status code (400 = BAD_REQUEST).
-/

/-- Model pricing configuration (USD per 1K tokens), from `struct ModelPricing`. -/
structure ModelPricing where
  input : ℚ
  output : ℚ
deriving DecidableEq

/-- The pricing table built by `get_model_pricing`, as an association list
with exactly the insertions of the Rust function (all keys distinct, so the
`HashMap` holds exactly these pairs). -/
def get_model_pricing : List (String × ModelPricing) := [
  ("gpt-3.5-turbo", ⟨0.0005, 0.0015⟩),
  ("gpt-3.5-turbo-0125", ⟨0.0005, 0.0015⟩),
  ("gpt-3.5-turbo-1106", ⟨0.001, 0.002⟩),
  ("gpt-4", ⟨0.03, 0.06⟩),
  ("gpt-4-0613", ⟨0.03, 0.06⟩),
  ("gpt-4-turbo", ⟨0.01, 0.03⟩),
  ("gpt-4-turbo-preview", ⟨0.01, 0.03⟩),
  ("gpt-4-1106-preview", ⟨0.01, 0.03⟩),
  ("gpt-4o", ⟨0.005, 0.015⟩),
  ("gpt-4o-mini", ⟨0.00015, 0.0006⟩),
  ("claude-3-opus", ⟨0.015, 0.075⟩),
  ("claude-3-sonnet", ⟨0.003, 0.015⟩),
  ("claude-3-haiku", ⟨0.00025, 0.00125⟩)]

/-- The lookup performed inside `calculate_cost`:
`pricing.get(model).unwrap_or_else(|| pricing.get("gpt-3.5-turbo").unwrap())`.
The `unwrap` on the default key is modelled by `Option.getD` with a junk
entry; the default key is present in the table (see the pricing-table
invariant below), so the junk entry is never produced. -/
def lookup_pricing (model : String) : ModelPricing :=
  match get_model_pricing.lookup model with
  | some p => p
  | none => (get_model_pricing.lookup "gpt-3.5-turbo").getD ⟨0, 0⟩

/-- Estimate token count from text using the character-based heuristic of
`estimate_tokens`.  `text.chars().count()` is `String.length` (Unicode
scalar values), and the `f64` computation is carried out in `ℚ`. -/
def estimate_tokens (text : String) : ℕ :=
  if text = "" then 0
  else
    let char_count := text.length
    let base_estimate := (⌈(char_count : ℚ) / 4⌉).toNat
    let whitespace_count := (text.data.filter (fun c => c.isWhitespace)).length
    let whitespace_factor : ℚ := 1 + ((whitespace_count : ℚ) / (char_count : ℚ)) * 0.1
    (⌈(base_estimate : ℚ) * whitespace_factor⌉).toNat

/-- The final rounding step of `calculate_cost`:
`((x) * 100_000_000.0).round() / 100_000_000.0`. -/
def round8 (x : ℚ) : ℚ := ((round (x * 100000000) : ℤ) : ℚ) / 100000000

/-- Calculate cost based on token counts and model pricing (`calculate_cost`). -/
def calculate_cost (model : String) (tokens_in tokens_out : ℕ) : ℚ :=
  let model_pricing := lookup_pricing model
  let input_cost := ((tokens_in : ℚ) / 1000) * model_pricing.input
  let output_cost := ((tokens_out : ℚ) / 1000) * model_pricing.output
  round8 (input_cost + output_cost)

/-- `fn default_model()`. -/
def default_model : String := "gpt-3.5-turbo"

/-- HTTP 400. -/
def BAD_REQUEST : ℕ := 400

/-- `struct TokenEstimateRequest` (after JSON deserialization, with the
`model` default already applied). -/
structure TokenEstimateRequest where
  text : String
  model : String

/-- `struct TokenEstimateResponse`. -/
structure TokenEstimateResponse where
  tokens : ℕ
  model : String

/-- `struct ErrorResponse`. -/
structure ErrorResponse where
  error : String
deriving DecidableEq

/-- `struct CostEstimateRequest` (after JSON deserialization, with the
`model` default already applied). -/
structure CostEstimateRequest where
  input_text : Option String
  tokens_in : Option ℕ
  output_text : Option String
  tokens_out : Option ℕ
  model : String

/-- `struct CostEstimateResponse`. -/
structure CostEstimateResponse where
  tokens_in : ℕ
  tokens_out : ℕ
  cost_usd : ℚ
  model : String

/-- `async fn estimate_tokens_handler`. -/
def estimate_tokens_handler (req : TokenEstimateRequest) :
    Except (ℕ × ErrorResponse) TokenEstimateResponse :=
  if req.text = "" then
    Except.error (BAD_REQUEST, ⟨"text field is required and cannot be empty"⟩)
  else
    Except.ok ⟨estimate_tokens req.text, req.model⟩

/-- The per-side token resolution of `estimate_cost_handler`: both the
input side and the output side run this same three-armed `match` on the
pre-counted tokens and the optional text. -/
def resolve_tokens (tokens : Option ℕ) (text : Option String) : ℕ :=
  match tokens, text with
  | some t, _ => t
  | none, some s => estimate_tokens s
  | none, none => 0

/-- `async fn estimate_cost_handler`. -/
def estimate_cost_handler (req : CostEstimateRequest) :
    Except (ℕ × ErrorResponse) CostEstimateResponse :=
  let tokens_in := resolve_tokens req.tokens_in req.input_text
  let tokens_out := resolve_tokens req.tokens_out req.output_text
  if tokens_in = 0 ∧ tokens_out = 0 then
    Except.error (BAD_REQUEST,
      ⟨"At least one of tokens_in, input_text, tokens_out, or output_text is required"⟩)
  else
    Except.ok ⟨tokens_in, tokens_out, calculate_cost req.model tokens_in tokens_out, req.model⟩

-- === Shared helper lemmas ===

/-- A successful association-list lookup returns one of the stored values. -/
theorem lookup_mem_snd {l : List (String × ModelPricing)} {a : String}
    {p : ModelPricing} (h : l.lookup a = some p) : p ∈ l.map Prod.snd := by
  induction l with
  | nil => simp [List.lookup] at h
  | cons hd tl ih =>
    obtain ⟨k, v⟩ := hd
    rw [List.lookup_cons] at h
    split at h
    · simp only [Option.some.injEq] at h
      simp [h]
    · simp [ih h]

/-- Every value in the pricing table has non-negative input and output rates. -/
theorem table_rates_nonneg :
    ∀ p ∈ get_model_pricing.map Prod.snd, 0 ≤ p.input ∧ 0 ≤ p.output := by
  intro p hp
  simp only [get_model_pricing, List.map_cons, List.map_nil] at hp
  fin_cases hp <;> constructor <;> norm_num

/-- Whatever the model string, `lookup_pricing` returns a value stored in
the table. -/
theorem lookup_pricing_mem (m : String) :
    lookup_pricing m ∈ get_model_pricing.map Prod.snd := by
  unfold lookup_pricing
  cases h : get_model_pricing.lookup m with
  | some p => exact lookup_mem_snd h
  | none =>
    rw [show get_model_pricing.lookup "gpt-3.5-turbo" = some ⟨0.0005, 0.0015⟩ from rfl]
    simp [get_model_pricing]

/-- The rates used by `calculate_cost` are non-negative for every model. -/
theorem lookup_pricing_nonneg (m : String) :
    0 ≤ (lookup_pricing m).input ∧ 0 ≤ (lookup_pricing m).output :=
  table_rates_nonneg _ (lookup_pricing_mem m)

/-- `round8` is monotone. -/
theorem round8_mono {x y : ℚ} (h : x ≤ y) : round8 x ≤ round8 y := by
  unfold round8
  have hr : round (x * 100000000) ≤ round (y * 100000000) := by
    rw [round_eq, round_eq]
    exact Int.floor_le_floor (by linarith)
  have hq : ((round (x * 100000000) : ℤ) : ℚ) ≤ ((round (y * 100000000) : ℤ) : ℚ) := by
    exact_mod_cast hr
  exact (div_le_div_iff_of_pos_right (by norm_num)).mpr hq

/-- `round8` preserves non-negativity. -/
theorem round8_nonneg {x : ℚ} (h : 0 ≤ x) : 0 ≤ round8 x := by
  unfold round8
  have h0 : (0 : ℤ) ≤ round (x * 100000000) := by
    rw [round_eq]
    exact Int.le_floor.mpr (by push_cast; linarith)
  exact div_nonneg (by exact_mod_cast h0) (by norm_num)

-- === Claim theorems ===

/-- C8: every entry of the pricing table has output rate at least its input
rate, and the table contains the designated default key "gpt-3.5-turbo". -/
theorem pricing_table_invariants :
    (∀ p ∈ get_model_pricing, p.2.input ≤ p.2.output) ∧
    get_model_pricing.lookup "gpt-3.5-turbo" = some ⟨0.0005, 0.0015⟩ := by
  constructor
  · intro p hp
    fin_cases hp <;> norm_num
  · rfl

/-- Witness for C8 at the concrete entry ("gpt-4", ⟨0.03, 0.06⟩). -/
theorem pricing_table_invariants_witness :
    (("gpt-4", (⟨0.03, 0.06⟩ : ModelPricing)) ∈ get_model_pricing) ∧
    ("gpt-4", (⟨0.03, 0.06⟩ : ModelPricing)).2.input ≤
      ("gpt-4", (⟨0.03, 0.06⟩ : ModelPricing)).2.output :=
  ⟨by simp [get_model_pricing],
   pricing_table_invariants.1 ("gpt-4", ⟨0.03, 0.06⟩) (by simp [get_model_pricing])⟩

/-- C1: for every model identifier absent from the pricing table and all
token counts, `calculate_cost` coincides with the cost for the default
model "gpt-3.5-turbo": the lookup falls back to the default entry and
never fails. -/
theorem calculate_cost_unknown_model (m : String)
    (h : get_model_pricing.lookup m = none) (tIn tOut : ℕ) :
    calculate_cost m tIn tOut = calculate_cost "gpt-3.5-turbo" tIn tOut := by
  have hm : lookup_pricing m = lookup_pricing "gpt-3.5-turbo" := by
    unfold lookup_pricing
    rw [h, show get_model_pricing.lookup "gpt-3.5-turbo" = some ⟨0.0005, 0.0015⟩ from rfl]
    rfl
  unfold calculate_cost
  rw [hm]

/-- Witness for C1 at the unknown model "unknown-model" with 1000 input and
500 output tokens. -/
theorem calculate_cost_unknown_model_witness :
    get_model_pricing.lookup "unknown-model" = none ∧
    calculate_cost "unknown-model" 1000 500 = calculate_cost "gpt-3.5-turbo" 1000 500 :=
  ⟨rfl, calculate_cost_unknown_model "unknown-model" rfl 1000 500⟩

/-- C3: a token-estimation request with empty text is rejected with a 400
client error by the handler, while the internal `estimate_tokens` applied
directly to the empty string returns exactly 0. -/
theorem empty_text_two_layers :
    (∀ model, estimate_tokens_handler ⟨"", model⟩ =
      Except.error (BAD_REQUEST, ⟨"text field is required and cannot be empty"⟩)) ∧
    estimate_tokens "" = 0 :=
  ⟨fun _ => rfl, rfl⟩

/-- C9: in the token-estimation operation the model identifier does not
influence the computed token count: two requests with the same text and
any two model identifiers produce the same token count (and the same
success/failure outcome). -/
theorem tokens_not_influenced_by_model (text m1 m2 : String) :
    (estimate_tokens_handler ⟨text, m1⟩).map TokenEstimateResponse.tokens =
    (estimate_tokens_handler ⟨text, m2⟩).map TokenEstimateResponse.tokens := by
  unfold estimate_tokens_handler
  split <;> rfl

/-- C4: per-side token resolution: a supplied pre-counted value is used
verbatim (even zero, and any supplied text is then ignored); otherwise
supplied text is run through `estimate_tokens`; otherwise the count is 0.
Both sides of `estimate_cost_handler` resolve with this function. -/
theorem resolve_tokens_policy (tokens : Option ℕ) (text : Option String) :
    (∀ t, tokens = some t → resolve_tokens tokens text = t) ∧
    (tokens = none → ∀ s, text = some s → resolve_tokens tokens text = estimate_tokens s) ∧
    (tokens = none → text = none → resolve_tokens tokens text = 0) := by
  refine ⟨?_, ?_, ?_⟩
  · rintro t rfl
    cases text <;> rfl
  · rintro rfl s rfl
    rfl
  · rintro rfl rfl
    rfl

/-- Witness for C4: all three resolution branches at concrete inputs,
including a pre-counted zero that overrides supplied text. -/
theorem resolve_tokens_policy_witness :
    resolve_tokens (some 0) (some "Hello") = 0 ∧
    resolve_tokens none (some "Hello") = estimate_tokens "Hello" ∧
    resolve_tokens (none : Option ℕ) (none : Option String) = 0 :=
  ⟨(resolve_tokens_policy (some 0) (some "Hello")).1 0 rfl,
   (resolve_tokens_policy none (some "Hello")).2.1 rfl "Hello" rfl,
   (resolve_tokens_policy none none).2.2 rfl rfl⟩

/-- The whitespace adjustment factor of `estimate_tokens` is at least 1. -/
theorem whitespace_factor_ge_one (text : String) :
    (1 : ℚ) ≤ 1 + (((text.data.filter (fun c => c.isWhitespace)).length : ℚ) /
      (text.length : ℚ)) * 0.1 := by
  have h0 : (0 : ℚ) ≤ (((text.data.filter (fun c => c.isWhitespace)).length : ℚ) /
      (text.length : ℚ)) * 0.1 := by positivity
  linarith

/-- For non-empty text the final estimate is at least the base estimate
`⌈charCount / 4⌉`. -/
theorem estimate_tokens_ge_base (text : String) (h : ¬ text = "") :
    (⌈(text.length : ℚ) / 4⌉).toNat ≤ estimate_tokens text := by
  unfold estimate_tokens
  rw [if_neg h]
  dsimp only
  have hfac := whitespace_factor_ge_one text
  have h1 : (((⌈(text.length : ℚ) / 4⌉).toNat : ℚ)) ≤
      ((⌈(text.length : ℚ) / 4⌉).toNat : ℚ) *
        (1 + (((text.data.filter (fun c => c.isWhitespace)).length : ℚ) /
          (text.length : ℚ)) * 0.1) :=
    le_mul_of_one_le_right (by positivity) hfac
  have h2 : ((⌈(text.length : ℚ) / 4⌉).toNat : ℤ) ≤
      ⌈((⌈(text.length : ℚ) / 4⌉).toNat : ℚ) *
        (1 + (((text.data.filter (fun c => c.isWhitespace)).length : ℚ) /
          (text.length : ℚ)) * 0.1)⌉ := by
    calc ((⌈(text.length : ℚ) / 4⌉).toNat : ℤ)
        = ⌈(((⌈(text.length : ℚ) / 4⌉).toNat : ℕ) : ℚ)⌉ :=
          (Int.ceil_natCast _).symm
      _ ≤ _ := Int.ceil_mono h1
  omega

/-- A non-empty string has positive character count. -/
theorem length_pos_of_ne_empty (text : String) (h : text ≠ "") : 0 < text.length := by
  obtain ⟨l⟩ := text
  cases l with
  | nil => exact absurd rfl h
  | cons c cs => simp [String.length]

/-- For non-empty text the estimate is at least one token. -/
theorem one_le_estimate_tokens (text : String) (h : text ≠ "") :
    1 ≤ estimate_tokens text := by
  have hcc : 0 < text.length := length_pos_of_ne_empty text h
  have hbase : (1 : ℤ) ≤ ⌈(text.length : ℚ) / 4⌉ :=
    Int.ceil_pos.mpr (by positivity)
  have h1 : 1 ≤ (⌈(text.length : ℚ) / 4⌉).toNat := by omega
  exact le_trans h1 (estimate_tokens_ge_base text h)

/-- C2: a cost-estimation request is rejected if and only if both the
resolved input and the resolved output token counts are zero; the error
branch carries only a status code and a message, never a cost value. -/
theorem cost_request_rejected_iff (req : CostEstimateRequest) :
    (∃ e, estimate_cost_handler req = Except.error e) ↔
      (resolve_tokens req.tokens_in req.input_text = 0 ∧
       resolve_tokens req.tokens_out req.output_text = 0) := by
  simp only [estimate_cost_handler]
  split
  next hc => exact ⟨fun _ => hc, fun _ => ⟨_, rfl⟩⟩
  next hc =>
    constructor
    · rintro ⟨e, he⟩
      cases he
    · intro hcon
      exact absurd hcon hc

/-- C5: for every non-empty Unicode text the estimate is at least
`⌈charCount / 4⌉` where `charCount` counts Unicode characters, and the
whitespace adjustment factor is at least 1, so it can only hold or
increase the base estimate. -/
theorem estimate_tokens_lower_bound (text : String) (h : text ≠ "") :
    (⌈(text.length : ℚ) / 4⌉).toNat ≤ estimate_tokens text ∧
    (1 : ℚ) ≤ 1 + (((text.data.filter (fun c => c.isWhitespace)).length : ℚ) /
      (text.length : ℚ)) * 0.1 :=
  ⟨estimate_tokens_ge_base text h, whitespace_factor_ge_one text⟩

/-- Witness for C5 at the non-empty text "Hello". -/
theorem estimate_tokens_lower_bound_witness :
    ("Hello" : String) ≠ "" ∧
    ((⌈(("Hello" : String).length : ℚ) / 4⌉).toNat ≤ estimate_tokens "Hello" ∧
     (1 : ℚ) ≤ 1 + (((("Hello" : String).data.filter (fun c => c.isWhitespace)).length : ℚ) /
       (("Hello" : String).length : ℚ)) * 0.1) :=
  ⟨by decide, estimate_tokens_lower_bound "Hello" (by decide)⟩

/-- C6: for every model the cost is monotone non-decreasing in the input
token count (output count fixed) and in the output token count (input
count fixed). -/
theorem calculate_cost_monotone (m : String) (tIn tIn' tOut : ℕ) (h : tIn ≤ tIn') :
    calculate_cost m tIn tOut ≤ calculate_cost m tIn' tOut ∧
    calculate_cost m tOut tIn ≤ calculate_cost m tOut tIn' := by
  obtain ⟨hi, ho⟩ := lookup_pricing_nonneg m
  have hc : (tIn : ℚ) ≤ (tIn' : ℚ) := by exact_mod_cast h
  constructor
  · simp only [calculate_cost]
    apply round8_mono
    have h2 : (tIn : ℚ) / 1000 * (lookup_pricing m).input ≤
        (tIn' : ℚ) / 1000 * (lookup_pricing m).input :=
      mul_le_mul_of_nonneg_right (by linarith) hi
    linarith
  · simp only [calculate_cost]
    apply round8_mono
    have h2 : (tIn : ℚ) / 1000 * (lookup_pricing m).output ≤
        (tIn' : ℚ) / 1000 * (lookup_pricing m).output :=
      mul_le_mul_of_nonneg_right (by linarith) ho
    linarith

/-- Witness for C6 for the model "gpt-4" with 10 ≤ 20 and the other side
fixed at 5. -/
theorem calculate_cost_monotone_witness :
    (10 : ℕ) ≤ 20 ∧
    (calculate_cost "gpt-4" 10 5 ≤ calculate_cost "gpt-4" 20 5 ∧
     calculate_cost "gpt-4" 5 10 ≤ calculate_cost "gpt-4" 5 20) :=
  ⟨by norm_num, calculate_cost_monotone "gpt-4" 10 20 5 (by norm_num)⟩

/-- C7: for every model and all token counts the cost is non-negative and
is an integer multiple of 10⁻⁸: it has no more than 8 decimal places and,
in the exact arithmetic of the embedding, carries no residue beyond that
precision. -/
theorem calculate_cost_nonneg_rounded (m : String) (tIn tOut : ℕ) :
    0 ≤ calculate_cost m tIn tOut ∧
    ∃ k : ℤ, calculate_cost m tIn tOut * 100000000 = (k : ℚ) := by
  obtain ⟨hi, ho⟩ := lookup_pricing_nonneg m
  constructor
  · simp only [calculate_cost]
    apply round8_nonneg
    have h1 : (0 : ℚ) ≤ (tIn : ℚ) / 1000 * (lookup_pricing m).input :=
      mul_nonneg (by positivity) hi
    have h2 : (0 : ℚ) ≤ (tOut : ℚ) / 1000 * (lookup_pricing m).output :=
      mul_nonneg (by positivity) ho
    linarith
  · refine ⟨round ((((tIn : ℚ) / 1000) * (lookup_pricing m).input +
      ((tOut : ℚ) / 1000) * (lookup_pricing m).output) * 100000000), ?_⟩
    simp only [calculate_cost, round8]
    rw [div_mul_cancel₀]
    norm_num

/-- C10: a non-empty text never yields a zero token estimate, so a cost
request supplying non-empty text on the input side (and no pre-counted
input tokens) always passes the both-zero validation gate and succeeds. -/
theorem nonempty_text_passes_gate (text : String) (h : text ≠ "") :
    1 ≤ estimate_tokens text ∧
    ∀ req : CostEstimateRequest, req.tokens_in = none → req.input_text = some text →
      ∃ resp, estimate_cost_handler req = Except.ok resp := by
  have hpos := one_le_estimate_tokens text h
  refine ⟨hpos, ?_⟩
  intro req h1 h2
  have hres : resolve_tokens req.tokens_in req.input_text = estimate_tokens text := by
    rw [h1, h2]
    rfl
  have hne : ¬(resolve_tokens req.tokens_in req.input_text = 0 ∧
      resolve_tokens req.tokens_out req.output_text = 0) := by
    rintro ⟨ha, _⟩
    rw [hres] at ha
    omega
  refine ⟨⟨resolve_tokens req.tokens_in req.input_text,
           resolve_tokens req.tokens_out req.output_text,
           calculate_cost req.model (resolve_tokens req.tokens_in req.input_text)
             (resolve_tokens req.tokens_out req.output_text), req.model⟩, ?_⟩
  simp only [estimate_cost_handler]
  rw [if_neg hne]

/-- Witness for C10 at the one-character text "a" and a concrete cost
request carrying it as input text. -/
theorem nonempty_text_passes_gate_witness :
    ("a" : String) ≠ "" ∧ 1 ≤ estimate_tokens "a" ∧
    ∃ resp, estimate_cost_handler ⟨some "a", none, none, none, "gpt-4"⟩ = Except.ok resp :=
  ⟨by decide, (nonempty_text_passes_gate "a" (by decide)).1,
   (nonempty_text_passes_gate "a" (by decide)).2 ⟨some "a", none, none, none, "gpt-4"⟩ rfl rfl⟩
